import Mathlib

/-!
Shallow embedding of the HTTP client wrapper (request façade, interceptor
pair, storage-backed token manager) and proofs of its specification claims.

The browser key-value storage is modelled as a total function from keys to
optional string values; the token manager operations are those of
`LocalStorageTokenManager` in `src/core/request/token.ts`.  The axios
interceptor pair of `createRequest` is modelled as pure functions: the
request interceptor transforms an outgoing request configuration, and the
response interceptor maps a transport outcome (plus oracles for the
external token-refresh call and for the re-issued original call) to its
observable effects: final store state, messages given to the error
handler, whether the external refresh was invoked, which configuration was
re-issued, and the value returned or error thrown to the caller.
-/

set_option autoImplicit false

/-- Browser-local key-value storage: absence of a key reads as null. -/
def LocalStorage : Type := String → Option String

def LocalStorage.getItem (s : LocalStorage) (k : String) : Option String := s k

def LocalStorage.setItem (s : LocalStorage) (k v : String) : LocalStorage :=
  fun k2 => if k2 = k then some v else s k2

def LocalStorage.removeItem (s : LocalStorage) (k : String) : LocalStorage :=
  fun k2 => if k2 = k then none else s k2

/-- Storage key for the access token (`TOKEN_KEY` in token.ts). -/
def TOKEN_KEY : String := "auth_token"

/-- Storage key for the refresh token (`REFRESH_TOKEN_KEY` in token.ts). -/
def REFRESH_TOKEN_KEY : String := "refresh_token"

/-- `LocalStorageTokenManager.getToken`. -/
def getToken (s : LocalStorage) : Option String := s.getItem TOKEN_KEY

/-- `LocalStorageTokenManager.setToken`. -/
def setToken (s : LocalStorage) (t : String) : LocalStorage := s.setItem TOKEN_KEY t

/-- `LocalStorageTokenManager.removeToken`. -/
def removeToken (s : LocalStorage) : LocalStorage := s.removeItem TOKEN_KEY

/-- `LocalStorageTokenManager.getRefreshToken`. -/
def getRefreshToken (s : LocalStorage) : Option String := s.getItem REFRESH_TOKEN_KEY

/-- `LocalStorageTokenManager.setRefreshToken`. -/
def setRefreshToken (s : LocalStorage) (t : String) : LocalStorage :=
  s.setItem REFRESH_TOKEN_KEY t

/-- `LocalStorageTokenManager.removeRefreshToken`. -/
def removeRefreshToken (s : LocalStorage) : LocalStorage :=
  s.removeItem REFRESH_TOKEN_KEY

/-- The response body shape `Response<T>`: a tagged union on `success`. -/
inductive Response (T : Type) where
  | success (data : T)
  | failure (errorCode : Nat) (errorMessage : String)
  deriving DecidableEq

/-- Errors thrown in the client: a JS `Error` object restricted to the
fields the interceptor reads (`name`, `message`, `response?.status`,
`response?.data?.errorMessage`). -/
structure JsError where
  name : String
  message : String
  respStatus : Option Nat
  respErrorMessage : Option String
  deriving DecidableEq

/-- Outcome of an awaited call: the promise resolves with a value or
rejects with an error. -/
inductive Outcome (T : Type) where
  | ok (r : Response T)
  | err (e : JsError)
  deriving DecidableEq

/-- The request configuration fields the interceptors read or write.
Path-variable values are modelled after `String(value)` stringification. -/
structure ReqCfg where
  url : String
  ignoreAuth : Bool
  silentError : Bool
  throwErr : Bool
  pathVariables : Option (List (String × String))
  authorizationHeader : Option String
  retry : Bool
  deriving DecidableEq

/-- Whether `p` is a prefix of `s` (character-exact). -/
def isPre : List Char → List Char → Bool
  | [], _ => true
  | _ :: _, [] => false
  | p :: ps, c :: cs => decide (p = c) && isPre ps cs

/-- The dollar character starting a JS replacement escape. -/
def dollarChar : Char := '$'

/-- The ampersand character of the matched-text escape. -/
def ampChar : Char := '&'

/-- The backquote character of the before-match escape (code point 96). -/
def backquoteChar : Char := Char.ofNat 96

/-- The single-quote character of the after-match escape (code point 39). -/
def quoteChar : Char := Char.ofNat 39

/-- ECMA-262 GetSubstitution for a string search pattern (no capture
groups): scanning the replacement text, dollar-dollar yields a dollar,
dollar-ampersand yields the matched text, dollar-backquote yields the
part of the subject before the match, dollar-quote yields the part after
the match, and every other dollar sequence (digits included, since there
are no captures) is literal. -/
def getSubstitution (matched before after : List Char) : List Char → List Char
  | [] => []
  | [c] => [c]
  | c :: c2 :: rest2 =>
    if c = dollarChar then
      if c2 = dollarChar then dollarChar :: getSubstitution matched before after rest2
      else if c2 = ampChar then matched ++ getSubstitution matched before after rest2
      else if c2 = backquoteChar then before ++ getSubstitution matched before after rest2
      else if c2 = quoteChar then after ++ getSubstitution matched before after rest2
      else dollarChar :: c2 :: getSubstitution matched before after rest2
    else c :: getSubstitution matched before after (c2 :: rest2)

/-- Scanner of JavaScript `String.prototype.replace` with a string
pattern: walks the subject keeping the already-scanned part reversed in
`acc`; at the first occurrence of `pat` it splices in the GetSubstitution
of the replacement (which may mention the matched text and the before and
after contexts) and stops. -/
def jsReplaceAux (pat rep : List Char) (acc : List Char) : List Char → List Char
  | [] => if isPre pat [] then getSubstitution pat acc.reverse [] rep else []
  | c :: rest =>
    if isPre pat (c :: rest) then
      getSubstitution pat acc.reverse ((c :: rest).drop pat.length) rep
        ++ (c :: rest).drop pat.length
    else c :: jsReplaceAux pat rep (c :: acc) rest

/-- JavaScript `String.prototype.replace` with a string pattern on the
character list: only the first occurrence of `pat` is rewritten, and the
replacement text goes through GetSubstitution. -/
def listReplaceFirst (pat rep s : List Char) : List Char := jsReplaceAux pat rep [] s

/-- `url.replace(pat, rep)` on strings. -/
def replaceFirst (s pat rep : String) : String :=
  String.mk (listReplaceFirst pat.data rep.data s.data)

/-- The template placeholder for a key, i.e. the string `\x7bkey\x7d`. -/
def braced (key : String) : String := "\x7b" ++ key ++ "\x7d"

/-- The request interceptor's `pathVariables` loop:
`Object.entries(pathVariables).forEach(([key, value]) =>
  url = url.replace(braced key, String(value)))`. -/
def substituteVars (url : String) (vars : List (String × String)) : String :=
  vars.foldl (fun u kv => replaceFirst u (braced kv.1) kv.2) url

/-- Does `pat` occur (as a contiguous substring) in `s`? -/
def occursIn (pat : List Char) : List Char → Bool
  | [] => isPre pat []
  | c :: rest => isPre pat (c :: rest) || occursIn pat rest

/-- The request interceptor of `createRequest`: bearer-token injection
(skipped when `ignoreAuth` is set, when no token is stored, or when the
stored token is the empty string, which is falsy in JS), then placeholder
substitution when `pathVariables` is supplied. -/
def requestInterceptor (store : LocalStorage) (cfg : ReqCfg) : ReqCfg :=
  let cfg1 :=
    if cfg.ignoreAuth then cfg
    else
      match getToken store with
      | some t => if t = "" then cfg else { cfg with authorizationHeader := some ("Bearer " ++ t) }
      | none => cfg
  match cfg1.pathVariables with
  | some vars => { cfg1 with url := substituteVars cfg1.url vars }
  | none => cfg1

/-- The transport envelope the success interceptor receives: the HTTP
status together with the parsed body. -/
structure AxiosResp (T : Type) where
  status : Nat
  data : Response T

/-- The response interceptor's success handler: a body tagged
`success:false` is turned into a thrown `ApiError` carrying a synthesized
status 400 and the body's `errorMessage`; a success body is returned
unwrapped. -/
def successHandler {T : Type} (resp : AxiosResp T) : Except JsError (Response T) :=
  match resp.data with
  | Response.failure _ msg =>
      Except.error
        { name := "ApiError", message := msg, respStatus := some 400,
          respErrorMessage := some msg }
  | Response.success d => Except.ok (Response.success d)

/-- The payload of a successful token-refresh response. -/
structure RefreshData where
  access : String
  refresh : String
  deriving DecidableEq

/-- Outcome of awaiting the external `refreshToken` call: the promise
resolves with a `Response` body or rejects with an error. -/
inductive RefreshResult where
  | resolved (r : Response RefreshData)
  | rejected (e : JsError)
  deriving DecidableEq

/-- JavaScript `a || b` on an optional string: `none` and the empty string
are falsy. -/
def strOr (a : Option String) (b : String) : String :=
  match a with
  | some s => if s = "" then b else s
  | none => b

/-- JavaScript `a || b` on an optional number: `none` and `0` are falsy. -/
def natOr (a : Option Nat) (b : Nat) : Nat :=
  match a with
  | some n => if n = 0 then b else n
  | none => b

/-- Observable effects of one run of the response interceptor's rejection
handler: the final store, the messages passed to `errorHandler.showError`,
whether the 401-refresh flow was entered, whether the external refresh
call was invoked, the configuration of the re-issued original call (if
any), and the outcome delivered to the caller. -/
structure Effects (T : Type) where
  store : LocalStorage
  reported : List String
  enteredRefreshFlow : Bool
  refreshCalled : Bool
  reissued : Option ReqCfg
  outcome : Outcome T

/-- Lines 153-166 of the interceptor: report unless `silentError`, then
either rethrow (when `throwError`) or return a synthesized failure
`Response` with `error.response?.status || 500` and the best available
message. -/
def genericFailureHandling {T : Type} (e : JsError) (cfg : ReqCfg) (store : LocalStorage) :
    Effects T :=
  { store := store
    reported := if cfg.silentError then [] else [strOr e.respErrorMessage e.message]
    enteredRefreshFlow := false
    refreshCalled := false
    reissued := none
    outcome :=
      if cfg.throwErr then Outcome.err e
      else Outcome.ok (Response.failure (natOr e.respStatus 500) (strOr e.respErrorMessage e.message)) }

/-- `removeToken(); removeRefreshToken()` — the catch block's cleanup. -/
def clearTokens (s : LocalStorage) : LocalStorage := removeRefreshToken (removeToken s)

/-- The error thrown when the Token Store holds no refresh token. -/
def noRefreshTokenError : JsError :=
  { name := "Error", message := "No refresh token available", respStatus := none,
    respErrorMessage := none }

/-- The response interceptor's rejection handler (lines 128-167).  The
outcome of the external refresh call and of the re-issued original call
are supplied as oracles (`refreshOutcome`, `retryOutcome`); the re-issued
call's outcome is already the post-interceptor one, and its rejection is
not caught by the surrounding try/catch because the code returns the
promise without awaiting it. -/
def respErrorInterceptor {T : Type} (refreshOutcome : RefreshResult) (retryOutcome : Outcome T)
    (e : JsError) (cfg : ReqCfg) (store : LocalStorage) : Effects T :=
  if e.respStatus = some 401 ∧ cfg.retry = false then
    let retriedCfg := { cfg with retry := true }
    match getRefreshToken store with
    | none =>
        { store := clearTokens store, reported := [], enteredRefreshFlow := true,
          refreshCalled := false, reissued := none, outcome := Outcome.err noRefreshTokenError }
    | some rt =>
        if rt = "" then
          { store := clearTokens store, reported := [], enteredRefreshFlow := true,
            refreshCalled := false, reissued := none, outcome := Outcome.err noRefreshTokenError }
        else
          match refreshOutcome with
          | RefreshResult.rejected re =>
              { store := clearTokens store, reported := [], enteredRefreshFlow := true,
                refreshCalled := true, reissued := none, outcome := Outcome.err re }
          | RefreshResult.resolved (Response.success d) =>
              { store := setRefreshToken (setToken store d.access) d.refresh,
                reported := [], enteredRefreshFlow := true, refreshCalled := true,
                reissued := some retriedCfg, outcome := retryOutcome }
          | RefreshResult.resolved (Response.failure _ _) =>
              { genericFailureHandling e retriedCfg store with
                  enteredRefreshFlow := true, refreshCalled := true }
  else genericFailureHandling e cfg store

/-- The request façade (`request`): before `createRequest` has run, the
module-level `requestInstance` is undefined and the call throws without
issuing any transport call.  The transport, when configured, is an oracle;
the Boolean records whether it was invoked. -/
def request {T : Type} (requestInstance : Option (ReqCfg → Outcome T)) (cfg : ReqCfg) :
    Outcome T × Bool :=
  match requestInstance with
  | none =>
      (Outcome.err
        { name := "Error",
          message := "Request instance not initialized. Call createRequest first.",
          respStatus := none, respErrorMessage := none }, false)
  | some transport => (transport cfg, true)

/-- Evaluation lemma: `a || b` on option strings agrees with `Option.getD`
whenever the stored message is not the empty string (JS falsiness). -/
theorem strOr_eq_getD (a : Option String) (b : String) (h : a ≠ some "") :
    strOr a b = a.getD b := by
  cases a with
  | none => rfl
  | some s =>
    have hs : s ≠ "" := fun hs => h (by rw [hs])
    simp [strOr, hs]

/-- Evaluation lemma: `a || b` on option numbers agrees with `Option.getD`
whenever the stored status is nonzero (JS falsiness). -/
theorem natOr_eq_getD (a : Option Nat) (b : Nat) (h : a ≠ some 0) :
    natOr a b = a.getD b := by
  cases a with
  | none => rfl
  | some n =>
    have hn : n ≠ 0 := fun hn => h (by rw [hn])
    simp [natOr, hn]

/-- Branch evaluation: a fresh 401 with a usable refresh token whose
refresh call is rejected. -/
theorem respErrorInterceptor_rejected_eq {T : Type} (retryO : Outcome T) (re e : JsError)
    (cfg : ReqCfg) (store : LocalStorage) (rt : String)
    (h401 : e.respStatus = some 401) (hretry : cfg.retry = false)
    (hrt : getRefreshToken store = some rt) (hne : rt ≠ "") :
    respErrorInterceptor (RefreshResult.rejected re) retryO e cfg store
      = { store := clearTokens store, reported := [], enteredRefreshFlow := true,
          refreshCalled := true, reissued := none, outcome := Outcome.err re } := by
  simp [respErrorInterceptor, h401, hretry, hrt, hne]

/-- Branch evaluation: a fresh 401 with a usable refresh token whose
refresh call resolves successfully. -/
theorem respErrorInterceptor_success_eq {T : Type} (retryO : Outcome T) (e : JsError)
    (cfg : ReqCfg) (store : LocalStorage) (rt : String) (d : RefreshData)
    (h401 : e.respStatus = some 401) (hretry : cfg.retry = false)
    (hrt : getRefreshToken store = some rt) (hne : rt ≠ "") :
    respErrorInterceptor (RefreshResult.resolved (Response.success d)) retryO e cfg store
      = { store := setRefreshToken (setToken store d.access) d.refresh, reported := [],
          enteredRefreshFlow := true, refreshCalled := true,
          reissued := some { cfg with retry := true }, outcome := retryO } := by
  simp [respErrorInterceptor, h401, hretry, hrt, hne]

/-- Branch evaluation: a fresh 401 with no stored refresh token. -/
theorem respErrorInterceptor_no_rt_eq {T : Type} (ro : RefreshResult) (retryO : Outcome T)
    (e : JsError) (cfg : ReqCfg) (store : LocalStorage)
    (h401 : e.respStatus = some 401) (hretry : cfg.retry = false)
    (habs : getRefreshToken store = none) :
    respErrorInterceptor ro retryO e cfg store
      = { store := clearTokens store, reported := [], enteredRefreshFlow := true,
          refreshCalled := false, reissued := none,
          outcome := Outcome.err noRefreshTokenError } := by
  simp [respErrorInterceptor, h401, hretry, habs]

/-- Reading either slot after the catch block's cleanup yields null. -/
theorem clearTokens_reads (store : LocalStorage) :
    getToken (clearTokens store) = none ∧ getRefreshToken (clearTokens store) = none := by
  constructor <;>
    simp [clearTokens, getToken, getRefreshToken, removeToken, removeRefreshToken,
      LocalStorage.getItem, LocalStorage.removeItem, TOKEN_KEY, REFRESH_TOKEN_KEY]

/-- Reading the slots after the refresh-success writes yields the new
pair. -/
theorem setTokens_reads (store : LocalStorage) (a r : String) :
    getToken (setRefreshToken (setToken store a) r) = some a ∧
    getRefreshToken (setRefreshToken (setToken store a) r) = some r := by
  constructor <;>
    simp [getToken, getRefreshToken, setToken, setRefreshToken,
      LocalStorage.getItem, LocalStorage.setItem, TOKEN_KEY, REFRESH_TOKEN_KEY]

/-- A store holding access token `A1` and refresh token `R1`. -/
def demoStoreBoth : LocalStorage :=
  fun k => if k = "auth_token" then some "A1" else if k = "refresh_token" then some "R1" else none

/-- A store holding neither token. -/
def demoEmptyStore : LocalStorage := fun _ => none

/-- The transport error for a 401 response without a parsed errorMessage. -/
def demoE401 : JsError :=
  { name := "AxiosError", message := "Request failed with status code 401",
    respStatus := some 401, respErrorMessage := none }

/-- A plain request configuration: all flags unset, no retry yet. -/
def demoCfg : ReqCfg :=
  { url := "/users", ignoreAuth := false, silentError := false, throwErr := false,
    pathVariables := none, authorizationHeader := none, retry := false }

/-- Claim C1: on a 401 whose call is not yet retried, the interceptor
enters the refresh-and-retry flow and any re-issued call carries the
retried flag (set before refreshing, so it cannot recurse); on a 401 whose
call is already retried, the refresh flow is not entered, no refresh is
invoked, and the failure goes to the generic reporting/throw handling. -/
theorem single_refresh_attempt_guard {T : Type} (ro : RefreshResult) (rt : Outcome T)
    (e : JsError) (cfg : ReqCfg) (store : LocalStorage) (h401 : e.respStatus = some 401) :
    (cfg.retry = false →
      (respErrorInterceptor ro rt e cfg store).enteredRefreshFlow = true ∧
      ∀ c, (respErrorInterceptor ro rt e cfg store).reissued = some c → c.retry = true) ∧
    (cfg.retry = true →
      respErrorInterceptor ro rt e cfg store = genericFailureHandling e cfg store ∧
      (respErrorInterceptor ro rt e cfg store).enteredRefreshFlow = false ∧
      (respErrorInterceptor ro rt e cfg store).refreshCalled = false) := by
  constructor
  · intro hr
    cases hgrt : getRefreshToken store with
    | none => simp [respErrorInterceptor, h401, hr, hgrt]
    | some rtv =>
      by_cases hrtv : rtv = ""
      · simp [respErrorInterceptor, h401, hr, hgrt, hrtv]
      · cases ro with
        | rejected re => simp [respErrorInterceptor, h401, hr, hgrt, hrtv]
        | resolved r =>
          cases r with
          | success d =>
            refine ⟨by simp [respErrorInterceptor, h401, hr, hgrt, hrtv], ?_⟩
            intro c hc
            simp [respErrorInterceptor, h401, hr, hgrt, hrtv] at hc
            rw [← hc]
          | failure code msg =>
            simp [respErrorInterceptor, h401, hr, hgrt, hrtv, genericFailureHandling]
  · intro hr
    have hcond : ¬(e.respStatus = some 401 ∧ cfg.retry = false) := by simp [hr]
    refine ⟨?_, ?_, ?_⟩ <;> simp [respErrorInterceptor, hcond, genericFailureHandling]

/-- Witness for C1 at a concrete 401 call, in both the fresh and the
already-retried configuration. -/
theorem single_refresh_attempt_guard_witness :
    (respErrorInterceptor (RefreshResult.resolved (Response.success ⟨"A2", "R2"⟩))
      (Outcome.ok (Response.success (0 : Nat))) demoE401 demoCfg demoStoreBoth).enteredRefreshFlow
        = true ∧
    (respErrorInterceptor (RefreshResult.resolved (Response.success ⟨"A2", "R2"⟩))
      (Outcome.ok (Response.success (0 : Nat))) demoE401 { demoCfg with retry := true }
      demoStoreBoth).refreshCalled = false := by
  constructor
  · exact ((single_refresh_attempt_guard _ _ _ _ _ rfl).1 rfl).1
  · exact ((single_refresh_attempt_guard _ _ _ _ _ rfl).2 rfl).2.2

/-- Claim C2 (amended): when the refresh call is rejected, both tokens are
removed from the store and the rejection is rethrown to the caller, with
no Error Reporter invocation, for every silentError/throwError setting. -/
theorem refresh_rejection_clears_tokens_and_rethrows {T : Type} (retryO : Outcome T)
    (re e : JsError) (cfg : ReqCfg) (store : LocalStorage) (rt : String)
    (h401 : e.respStatus = some 401) (hretry : cfg.retry = false)
    (hrt : getRefreshToken store = some rt) (hne : rt ≠ "") :
    (respErrorInterceptor (RefreshResult.rejected re) retryO e cfg store).store
        = clearTokens store ∧
    getToken (respErrorInterceptor (RefreshResult.rejected re) retryO e cfg store).store = none ∧
    getRefreshToken (respErrorInterceptor (RefreshResult.rejected re) retryO e cfg store).store
        = none ∧
    (respErrorInterceptor (RefreshResult.rejected re) retryO e cfg store).outcome
        = Outcome.err re ∧
    (respErrorInterceptor (RefreshResult.rejected re) retryO e cfg store).reported = [] := by
  rw [respErrorInterceptor_rejected_eq retryO re e cfg store rt h401 hretry hrt hne]
  exact ⟨rfl, (clearTokens_reads store).1, (clearTokens_reads store).2, rfl, rfl⟩

/-- Witness for C2 (amended) at a concrete rejected refresh. -/
theorem refresh_rejection_witness :
    getToken (respErrorInterceptor (RefreshResult.rejected
        { name := "Error", message := "refresh boom", respStatus := none,
          respErrorMessage := none })
      (Outcome.ok (Response.success (0 : Nat))) demoE401 demoCfg demoStoreBoth).store = none ∧
    (respErrorInterceptor (RefreshResult.rejected
        { name := "Error", message := "refresh boom", respStatus := none,
          respErrorMessage := none })
      (Outcome.ok (Response.success (0 : Nat))) demoE401 demoCfg demoStoreBoth).outcome
        = Outcome.err
            { name := "Error", message := "refresh boom", respStatus := none,
              respErrorMessage := none } := by
  have h := refresh_rejection_clears_tokens_and_rethrows
    (Outcome.ok (Response.success (0 : Nat)))
    { name := "Error", message := "refresh boom", respStatus := none, respErrorMessage := none }
    demoE401 demoCfg demoStoreBoth "R1" rfl rfl (by decide) (by decide)
  exact ⟨h.2.1, h.2.2.2.1⟩

/-- The effects of a 401-triggered refresh that resolves with a
`success:false` body: the code falls through to the generic handling. -/
def demoFallThroughEff : Effects Nat :=
  respErrorInterceptor (RefreshResult.resolved (Response.failure 500 "refresh denied"))
    (Outcome.ok (Response.success 0)) demoE401 demoCfg demoStoreBoth

/-- Counterexample to C2 as stated: a refresh call that fails by
resolving with a `success:false` body leaves both tokens in the store,
invokes the Error Reporter (silentError is unset), and returns a
synthesized failure Response instead of throwing. -/
theorem refresh_resolved_failure_falls_through :
    getToken demoFallThroughEff.store = some "A1" ∧
    getRefreshToken demoFallThroughEff.store = some "R1" ∧
    demoFallThroughEff.reported = ["Request failed with status code 401"] ∧
    demoFallThroughEff.outcome
      = Outcome.ok (Response.failure 401 "Request failed with status code 401") := by
  refine ⟨?_, ?_, ?_, ?_⟩ <;> decide

/-- Claim C3: a 401-triggered refresh that resolves successfully writes
the new access and refresh tokens to the store, re-issues the original
call exactly once with its retried flag set, and returns that re-issued
call's result to the caller, without reporting. -/
theorem refresh_success_reissues_with_new_tokens {T : Type} (retryO : Outcome T)
    (e : JsError) (cfg : ReqCfg) (store : LocalStorage) (rt a r : String)
    (h401 : e.respStatus = some 401) (hretry : cfg.retry = false)
    (hrt : getRefreshToken store = some rt) (hne : rt ≠ "") :
    (respErrorInterceptor (RefreshResult.resolved (Response.success ⟨a, r⟩)) retryO e cfg
        store).store = setRefreshToken (setToken store a) r ∧
    getToken (respErrorInterceptor (RefreshResult.resolved (Response.success ⟨a, r⟩)) retryO e cfg
        store).store = some a ∧
    getRefreshToken (respErrorInterceptor (RefreshResult.resolved (Response.success ⟨a, r⟩))
        retryO e cfg store).store = some r ∧
    (respErrorInterceptor (RefreshResult.resolved (Response.success ⟨a, r⟩)) retryO e cfg
        store).reissued = some { cfg with retry := true } ∧
    (respErrorInterceptor (RefreshResult.resolved (Response.success ⟨a, r⟩)) retryO e cfg
        store).outcome = retryO ∧
    (respErrorInterceptor (RefreshResult.resolved (Response.success ⟨a, r⟩)) retryO e cfg
        store).reported = [] := by
  rw [respErrorInterceptor_success_eq retryO e cfg store rt ⟨a, r⟩ h401 hretry hrt hne]
  exact ⟨rfl, (setTokens_reads store a r).1, (setTokens_reads store a r).2, rfl, rfl, rfl⟩

/-- Witness for C3: the spec scenario where refresh returns A2/R2. -/
theorem refresh_success_witness :
    getToken (respErrorInterceptor (RefreshResult.resolved (Response.success ⟨"A2", "R2"⟩))
      (Outcome.ok (Response.success (7 : Nat))) demoE401 demoCfg demoStoreBoth).store
        = some "A2" ∧
    getRefreshToken (respErrorInterceptor (RefreshResult.resolved (Response.success ⟨"A2", "R2"⟩))
      (Outcome.ok (Response.success (7 : Nat))) demoE401 demoCfg demoStoreBoth).store
        = some "R2" ∧
    (respErrorInterceptor (RefreshResult.resolved (Response.success ⟨"A2", "R2"⟩))
      (Outcome.ok (Response.success (7 : Nat))) demoE401 demoCfg demoStoreBoth).outcome
        = Outcome.ok (Response.success 7) := by
  have h := refresh_success_reissues_with_new_tokens
    (Outcome.ok (Response.success (7 : Nat))) demoE401 demoCfg demoStoreBoth "R1" "A2" "R2"
    rfl rfl (by decide) (by decide)
  exact ⟨h.2.1, h.2.2.1, h.2.2.2.2.1⟩

/-- Claim C4: a 401 on a fresh call with no stored refresh token fails
with the "No refresh token available" error, which the refresh-failure
path turns into clearing both tokens and rethrowing; no refresh call is
made and nothing is reported. -/
theorem missing_refresh_token_clears_and_throws {T : Type} (ro : RefreshResult)
    (retryO : Outcome T) (e : JsError) (cfg : ReqCfg) (store : LocalStorage)
    (h401 : e.respStatus = some 401) (hretry : cfg.retry = false)
    (habs : getRefreshToken store = none) :
    (respErrorInterceptor ro retryO e cfg store).store = clearTokens store ∧
    getToken (respErrorInterceptor ro retryO e cfg store).store = none ∧
    getRefreshToken (respErrorInterceptor ro retryO e cfg store).store = none ∧
    (respErrorInterceptor ro retryO e cfg store).outcome = Outcome.err noRefreshTokenError ∧
    (respErrorInterceptor ro retryO e cfg store).reported = [] ∧
    (respErrorInterceptor ro retryO e cfg store).refreshCalled = false := by
  rw [respErrorInterceptor_no_rt_eq ro retryO e cfg store h401 hretry habs]
  exact ⟨rfl, (clearTokens_reads store).1, (clearTokens_reads store).2, rfl, rfl, rfl⟩

/-- Witness for C4 on the empty store. -/
theorem missing_refresh_token_witness :
    (respErrorInterceptor (RefreshResult.rejected noRefreshTokenError)
      (Outcome.ok (Response.success (0 : Nat))) demoE401 demoCfg demoEmptyStore).outcome
        = Outcome.err noRefreshTokenError ∧
    getToken (respErrorInterceptor (RefreshResult.rejected noRefreshTokenError)
      (Outcome.ok (Response.success (0 : Nat))) demoE401 demoCfg demoEmptyStore).store = none := by
  have h := missing_refresh_token_clears_and_throws (RefreshResult.rejected noRefreshTokenError)
    (Outcome.ok (Response.success (0 : Nat))) demoE401 demoCfg demoEmptyStore rfl rfl rfl
  exact ⟨h.2.2.2.1, h.2.1⟩

/-- Claim C5: a body tagged `success:false` is always turned into a thrown
ApiError carrying synthesized status 400 and the body's errorMessage,
whatever the transport status was; the call's flags play no part (the
success handler does not consult them). -/
theorem business_failure_always_throws {T : Type} (status code : Nat) (msg : String) :
    successHandler { status := status, data := (Response.failure code msg : Response T) }
      = Except.error
          { name := "ApiError", message := msg, respStatus := some 400,
            respErrorMessage := some msg } := rfl

/-- Claim C8: for a terminal failure (anything but a fresh 401), the
Error Reporter is invoked with the body's errorMessage (else the transport
message) exactly when silentError is unset; then the error is rethrown
when throwError is set, else a synthesized failure Response with
`status or 500` and the best message is returned.  The falsy-edge
hypotheses reflect the data-model invariant that messages are non-empty
and statuses nonzero. -/
theorem terminal_failure_report_throw_or_synthesize {T : Type} (ro : RefreshResult)
    (retryO : Outcome T) (e : JsError) (cfg : ReqCfg) (store : LocalStorage)
    (hterm : ¬(e.respStatus = some 401 ∧ cfg.retry = false))
    (hmsg : e.respErrorMessage ≠ some "") (hst : e.respStatus ≠ some 0) :
    (respErrorInterceptor ro retryO e cfg store).reported
        = (if cfg.silentError then [] else [e.respErrorMessage.getD e.message]) ∧
    (respErrorInterceptor ro retryO e cfg store).outcome
        = (if cfg.throwErr then Outcome.err e
           else Outcome.ok (Response.failure (e.respStatus.getD 500)
                  (e.respErrorMessage.getD e.message))) ∧
    (respErrorInterceptor ro retryO e cfg store).store = store ∧
    (respErrorInterceptor ro retryO e cfg store).refreshCalled = false ∧
    (respErrorInterceptor ro retryO e cfg store).reissued = none := by
  have hg : respErrorInterceptor ro retryO e cfg store = genericFailureHandling e cfg store := by
    rw [respErrorInterceptor, if_neg hterm]
  rw [hg]
  refine ⟨?_, ?_, rfl, rfl, rfl⟩
  · rw [genericFailureHandling, strOr_eq_getD _ _ hmsg]
  · rw [genericFailureHandling, strOr_eq_getD _ _ hmsg, natOr_eq_getD _ _ hst]

/-- The spec scenario for C8: a 404 with silentError set and throwError
unset. -/
def demoE404 : JsError :=
  { name := "AxiosError", message := "Request failed with status code 404",
    respStatus := some 404, respErrorMessage := some "not found" }

/-- Witness for C8: nothing reported, synthesized failure returned. -/
theorem terminal_failure_witness :
    (respErrorInterceptor (RefreshResult.rejected noRefreshTokenError)
      (Outcome.ok (Response.success (0 : Nat))) demoE404 { demoCfg with silentError := true }
      demoStoreBoth).reported = [] ∧
    (respErrorInterceptor (RefreshResult.rejected noRefreshTokenError)
      (Outcome.ok (Response.success (0 : Nat))) demoE404 { demoCfg with silentError := true }
      demoStoreBoth).outcome = Outcome.ok (Response.failure 404 "not found") := by
  have h := terminal_failure_report_throw_or_synthesize
    (RefreshResult.rejected noRefreshTokenError) (Outcome.ok (Response.success (0 : Nat)))
    demoE404 { demoCfg with silentError := true } demoStoreBoth
    (by decide) (by decide) (by decide)
  refine ⟨?_, ?_⟩
  · rw [h.1]; rfl
  · rw [h.2.1]; rfl

/-- Claim C9: invoking the request façade before `createRequest` has
configured the module-level instance throws the uninitialized error and
issues no transport call. -/
theorem uninitialized_request_throws {T : Type} (cfg : ReqCfg) :
    request (none : Option (ReqCfg → Outcome T)) cfg
      = (Outcome.err
          { name := "Error",
            message := "Request instance not initialized. Call createRequest first.",
            respStatus := none, respErrorMessage := none }, false) ∧
    (request (none : Option (ReqCfg → Outcome T)) cfg).2 = false := ⟨rfl, rfl⟩

/-- A pattern is a prefix of itself followed by anything. -/
theorem isPre_self_append (pat b : List Char) : isPre pat (pat ++ b) = true := by
  induction pat with
  | nil => rfl
  | cons p ps ih => simp [isPre, ih]

/-- A replacement text that never mentions the dollar character passes
through GetSubstitution verbatim. -/
theorem getSubstitution_no_dollar (matched before after rep : List Char)
    (h : rep.contains dollarChar = false) :
    getSubstitution matched before after rep = rep := by
  induction rep with
  | nil => rfl
  | cons c rest ih =>
    have hsplit : (dollarChar == c) = false ∧ rest.contains dollarChar = false := by
      simpa [List.contains_cons, Bool.or_eq_false_iff] using h
    have hc : ¬ c = dollarChar := by
      intro hcc
      rw [hcc] at hsplit
      simpa using hsplit.1
    cases rest with
    | nil => rfl
    | cons c2 rest2 => simp [getSubstitution, hc, ih hsplit.2]

/-- The scanner rewrites exactly the first occurrence: on `a ++ pat ++ b`
where no occurrence of `pat` starts inside `a`, the result is `a` then
the GetSubstitution of the replacement (before-context `a`, after-context
`b`) then `b`. -/
theorem jsReplaceAux_append (pat rep : List Char) :
    ∀ (a b acc : List Char),
      (∀ i, i < a.length → isPre pat ((a ++ (pat ++ b)).drop i) = false) →
      jsReplaceAux pat rep acc (a ++ (pat ++ b))
        = a ++ (getSubstitution pat (acc.reverse ++ a) b rep ++ b) := by
  intro a
  induction a with
  | nil =>
    intro b acc hfirst
    cases pat with
    | nil => cases b <;> simp [jsReplaceAux, isPre]
    | cons p ps =>
      have h1 : isPre (p :: ps) (p :: (ps ++ b)) = true := by
        have := isPre_self_append (p :: ps) b
        simpa using this
      simp [jsReplaceAux, h1, List.drop_left]
  | cons c a2 ih =>
    intro b acc hfirst
    have h0 : isPre pat (c :: (a2 ++ (pat ++ b))) = false := by
      have := hfirst 0 (by simp)
      simpa using this
    have hrest : ∀ i, i < a2.length → isPre pat ((a2 ++ (pat ++ b)).drop i) = false := by
      intro i hi
      have := hfirst (i + 1) (by simpa using Nat.succ_lt_succ hi)
      simpa using this
    have ih2 := ih b (c :: acc) hrest
    simp only [List.reverse_cons, List.append_assoc, List.singleton_append] at ih2
    simp [jsReplaceAux, h0, ih2]

/-- String-pattern replace on `a ++ pat ++ b` with the first occurrence
starting right after `a`. -/
theorem listReplaceFirst_append (pat rep a b : List Char)
    (hfirst : ∀ i, i < a.length → isPre pat ((a ++ (pat ++ b)).drop i) = false) :
    listReplaceFirst pat rep (a ++ (pat ++ b)) = a ++ (getSubstitution pat a b rep ++ b) := by
  have h := jsReplaceAux_append pat rep a b [] hfirst
  simpa [listReplaceFirst] using h

/-- `replace` leaves a string without any occurrence of the pattern
unchanged. -/
theorem jsReplaceAux_not_occurs (pat rep s : List Char)
    (h : occursIn pat s = false) : ∀ acc, jsReplaceAux pat rep acc s = s := by
  induction s with
  | nil =>
    intro acc
    simp only [occursIn] at h
    simp [jsReplaceAux, h]
  | cons c rest ih =>
    intro acc
    rw [occursIn, Bool.or_eq_false_iff] at h
    simp [jsReplaceAux, h.1, ih h.2]

/-- `replace` on a string without any occurrence of the pattern. -/
theorem listReplaceFirst_not_occurs (pat rep s : List Char)
    (h : occursIn pat s = false) : listReplaceFirst pat rep s = s :=
  jsReplaceAux_not_occurs pat rep s h []

/-- A store holding only the access token `abc`. -/
def demoAuthStore : LocalStorage := fun k => if k = "auth_token" then some "abc" else none

/-- The spec scenario configuration: `/users/\x7bid\x7d` with `id -> 1`. -/
def demoPathCfg : ReqCfg :=
  { url := "/users/\x7bid\x7d", ignoreAuth := false, silentError := false, throwErr := false,
    pathVariables := some [("id", "1")], authorizationHeader := none, retry := false }

/-- Claim C6 (amended): the request interceptor rewrites the URL by the
`pathVariables` fold; each key/value pair rewrites only the first
occurrence of the `\x7bkey\x7d` placeholder in the accumulated URL, the
inserted text being the GetSubstitution of the stringified value — the
value itself whenever it contains no dollar character — and placeholders
whose key never occurs are left verbatim (the fold is total, so no error
is raised). -/
theorem placeholder_substitution_first_occurrence :
    (∀ (store : LocalStorage) (cfg : ReqCfg) (vars : List (String × String)),
        cfg.pathVariables = some vars →
        (requestInterceptor store cfg).url = substituteVars cfg.url vars) ∧
    (∀ (key value : String) (a b : List Char),
        (∀ i, i < a.length →
          isPre (braced key).data ((a ++ ((braced key).data ++ b)).drop i) = false) →
        (replaceFirst (String.mk (a ++ ((braced key).data ++ b))) (braced key) value).data
          = a ++ (getSubstitution (braced key).data a b value.data ++ b)) ∧
    (∀ (key value : String) (a b : List Char),
        value.data.contains dollarChar = false →
        (∀ i, i < a.length →
          isPre (braced key).data ((a ++ ((braced key).data ++ b)).drop i) = false) →
        (replaceFirst (String.mk (a ++ ((braced key).data ++ b))) (braced key) value).data
          = a ++ (value.data ++ b)) ∧
    (∀ (url : String) (vars : List (String × String)),
        (∀ kv, kv ∈ vars → occursIn (braced kv.1).data url.data = false) →
        substituteVars url vars = url) := by
  refine ⟨?_, ?_, ?_, ?_⟩
  · intro store cfg vars hpv
    by_cases hIg : cfg.ignoreAuth
    · simp [requestInterceptor, hIg, hpv]
    · cases hTok : getToken store with
      | none => simp [requestInterceptor, hIg, hTok, hpv]
      | some t =>
        by_cases ht : t = "" <;> simp [requestInterceptor, hIg, hTok, ht, hpv]
  · intro key value a b hfirst
    exact listReplaceFirst_append (braced key).data value.data a b hfirst
  · intro key value a b hnd hfirst
    have h := listReplaceFirst_append (braced key).data value.data a b hfirst
    rw [getSubstitution_no_dollar _ _ _ _ hnd] at h
    exact h
  · intro url vars h
    induction vars with
    | nil => rfl
    | cons kv rest ih =>
      have h1 : occursIn (braced kv.1).data url.data = false := h kv (by simp)
      have hrep : replaceFirst url (braced kv.1) kv.2 = url := by
        rw [replaceFirst, listReplaceFirst_not_occurs _ _ _ h1]
      have hstep : substituteVars url (kv :: rest) = substituteVars url rest := by
        rw [substituteVars, List.foldl_cons, hrep]
        rfl
      rw [hstep]
      exact ih fun kv2 hkv2 => h kv2 (by simp [hkv2])

/-- Witness for C6 (amended): the interceptor routes through the fold on
the spec scenario; the lone placeholder in `/users/\x7bid\x7d` is
substituted with the dollar-free value; a dollar-ampersand value inserts
the GetSubstitution text (the matched placeholder) instead; a URL without
the placeholder is untouched. -/
theorem placeholder_substitution_witness :
    (requestInterceptor demoAuthStore demoPathCfg).url
        = substituteVars "/users/\x7bid\x7d" [("id", "1")] ∧
    (replaceFirst (String.mk ("/users/".data ++ ((braced "id").data ++ []))) (braced "id")
        "1").data = "/users/".data ++ ("1".data ++ []) ∧
    (replaceFirst (String.mk ([] ++ ((braced "id").data ++ []))) (braced "id") "$&").data
        = [] ++ (getSubstitution (braced "id").data [] [] "$&".data ++ []) ∧
    substituteVars "/health" [("id", "1")] = "/health" := by
  refine ⟨?_, ?_, ?_, ?_⟩
  · exact placeholder_substitution_first_occurrence.1 demoAuthStore demoPathCfg
      [("id", "1")] rfl
  · exact placeholder_substitution_first_occurrence.2.2.1 "id" "1" "/users/".data []
      (by decide) (by decide)
  · exact placeholder_substitution_first_occurrence.2.1 "id" "$&" [] [] (by decide)
  · exact placeholder_substitution_first_occurrence.2.2.2 "/health" [("id", "1")] (by decide)

/-- Counterexample to C6 as stated: with the mapping `id -> 1`, the URL
template `/a/\x7bid\x7d/\x7bid\x7d` keeps its second placeholder — only
the first occurrence is replaced, so an occurrence of a mapped key
survives substitution. -/
theorem repeated_placeholder_not_all_replaced :
    substituteVars "/a/\x7bid\x7d/\x7bid\x7d" [("id", "1")] = "/a/1/\x7bid\x7d" ∧
    occursIn (braced "id").data
      (substituteVars "/a/\x7bid\x7d/\x7bid\x7d" [("id", "1")]).data = true := by
  exact ⟨by decide, by decide⟩

/-- Claim C7: with `ignoreAuth` unset and a (non-empty) stored access
token, the interceptor sets the Authorization header to exactly
`Bearer token`; with `ignoreAuth` set, or with no stored token, the
header field is left exactly as it came in. -/
theorem bearer_header_injection (store : LocalStorage) (cfg : ReqCfg) (t : String) :
    (cfg.ignoreAuth = false → getToken store = some t → t ≠ "" →
      (requestInterceptor store cfg).authorizationHeader = some ("Bearer " ++ t)) ∧
    (cfg.ignoreAuth = true →
      (requestInterceptor store cfg).authorizationHeader = cfg.authorizationHeader) ∧
    (getToken store = none →
      (requestInterceptor store cfg).authorizationHeader = cfg.authorizationHeader) := by
  refine ⟨?_, ?_, ?_⟩
  · intro hIg hTok hne
    cases hpv : cfg.pathVariables <;>
      simp [requestInterceptor, hIg, hTok, hne, hpv]
  · intro hIg
    cases hpv : cfg.pathVariables <;>
      simp [requestInterceptor, hIg, hpv]
  · intro hTok
    by_cases hIg : cfg.ignoreAuth <;>
      cases hpv : cfg.pathVariables <;>
        simp [requestInterceptor, hIg, hTok, hpv]

/-- Witness for C7: the scenario call carries `Bearer abc`. -/
theorem bearer_header_injection_witness :
    (requestInterceptor demoAuthStore demoPathCfg).authorizationHeader = some "Bearer abc" :=
  (bearer_header_injection demoAuthStore demoPathCfg "abc").1 rfl rfl (by decide)

/-- Claim C10: in the storage-backed token manager the two token slots are
independent: writing or removing one slot leaves the other slot's read
unchanged, and a read immediately after a write returns the written
value. -/
theorem token_slot_independence (s : LocalStorage) (t : String) :
    getRefreshToken (setToken s t) = getRefreshToken s ∧
    getRefreshToken (removeToken s) = getRefreshToken s ∧
    getToken (setRefreshToken s t) = getToken s ∧
    getToken (removeRefreshToken s) = getToken s ∧
    getToken (setToken s t) = some t ∧
    getRefreshToken (setRefreshToken s t) = some t := by
  refine ⟨?_, ?_, ?_, ?_, ?_, ?_⟩ <;>
    simp [getToken, setToken, removeToken, getRefreshToken, setRefreshToken,
      removeRefreshToken, LocalStorage.getItem, LocalStorage.setItem,
      LocalStorage.removeItem, TOKEN_KEY, REFRESH_TOKEN_KEY]
